import Mathlib

/-!
Verification of the `BudgetPlanner` component
(`src/src/components/BudgetPlanner.tsx`).

The component keeps two pieces of state — a monthly income and a record of
six expense categories — and derives totals, savings, a savings percentage,
a textual recommendation, pie-chart data and two export payloads (a
spreadsheet table and a plain-text report) from them.  Numbers are embedded
as rationals (`ℚ`): all arithmetic the component performs is addition,
subtraction, one division and one multiplication, which `ℚ` models exactly.
JavaScript's `Number.prototype.toLocaleString()` (en-US default locale) and
`Number.prototype.toFixed(2)` are modelled as string-producing functions on
`ℚ` below.
-/

namespace BudgetPlanner

/-- The six fixed expense categories, in declaration order
(`keyof typeof expenses` in the source). -/
inductive Category
  | housing
  | transportation
  | food
  | utilities
  | entertainment
  | other
deriving DecidableEq, Repr

/-- The `expenses` state object: six fixed keys, each a number. -/
structure ExpenseSet where
  housing : ℚ
  transportation : ℚ
  food : ℚ
  utilities : ℚ
  entertainment : ℚ
  other : ℚ
deriving DecidableEq, Repr

/-- The JavaScript property name of a category. -/
def Category.name : Category → String
  | .housing => "housing"
  | .transportation => "transportation"
  | .food => "food"
  | .utilities => "utilities"
  | .entertainment => "entertainment"
  | .other => "other"

/-- Read one entry of the expense record. -/
def getExpense (e : ExpenseSet) : Category → ℚ
  | .housing => e.housing
  | .transportation => e.transportation
  | .food => e.food
  | .utilities => e.utilities
  | .entertainment => e.entertainment
  | .other => e.other

/-- `handleExpenseChange`: `setExpenses((prev) => ({ ...prev, [category]: value }))`.
Replaces the named entry, keeps the rest.  (In the source the category
argument has type `keyof typeof expenses`, so only the six fixed keys are
expressible; the embedding mirrors that with the `Category` type.) -/
def setExpense (e : ExpenseSet) : Category → ℚ → ExpenseSet
  | .housing, v => { e with housing := v }
  | .transportation, v => { e with transportation := v }
  | .food, v => { e with food := v }
  | .utilities, v => { e with utilities := v }
  | .entertainment, v => { e with entertainment := v }
  | .other, v => { e with other := v }

/-- `Object.entries(expenses)`: the (key, value) pairs in declaration order. -/
def entriesList (e : ExpenseSet) : List (String × ℚ) :=
  [("housing", e.housing), ("transportation", e.transportation), ("food", e.food),
   ("utilities", e.utilities), ("entertainment", e.entertainment), ("other", e.other)]

/-- `Object.values(expenses)`: the values in declaration order. -/
def valuesList (e : ExpenseSet) : List ℚ :=
  (entriesList e).map Prod.snd

/-- The component state: `income` and `expenses`. -/
structure BudgetState where
  income : ℚ
  expenses : ExpenseSet
deriving DecidableEq, Repr

/-- The `useState` default for `expenses`. -/
def defaultExpenses : ExpenseSet :=
  { housing := 1500, transportation := 400, food := 600,
    utilities := 300, entertainment := 200, other := 300 }

/-- The `useState` defaults: income 5000 and the default expenses. -/
def defaultState : BudgetState :=
  { income := 5000, expenses := defaultExpenses }

/-- `Object.values(expenses).reduce((sum, expense) => sum + expense, 0)`. -/
def totalExpenses (e : ExpenseSet) : ℚ :=
  (valuesList e).foldl (· + ·) 0

/-- `const savings = income - totalExpenses`. -/
def savings (s : BudgetState) : ℚ :=
  s.income - totalExpenses s.expenses

/-- `const savingsPercentage = (savings / income) * 100`.  (In `ℚ`, division
by zero yields 0; the source does not guard income = 0 either, so every
claim about this value assumes a nonzero income.) -/
def savingsPercentage (s : BudgetState) : ℚ :=
  savings s / s.income * 100

/-- `str.charAt(0).toUpperCase() + str.slice(1)`. -/
def capitalize (str : String) : String :=
  match str.data with
  | [] => ""
  | c :: rest => String.mk (c.toUpper :: rest)

/-- `chartData`: one `{ name, value }` pair per category, name capitalized. -/
def chartData (e : ExpenseSet) : List (String × ℚ) :=
  (entriesList e).map (fun p => (capitalize p.1, p.2))

/-- Message of the `savingsPercentage < 0` tier. -/
def msgNegative : String :=
  "Your expenses exceed your income. Consider cutting back on non-essential spending."

/-- Message of the `savingsPercentage < 10` tier. -/
def msgBelow10 : String :=
  "You're saving less than 10% of your income. Financial experts recommend saving at least 20%."

/-- Message of the `savingsPercentage < 20` tier. -/
def msgAim20 : String :=
  "You're saving a good amount, but aim for 20% to build a strong financial foundation."

/-- Message of the final (else) tier. -/
def msgGreat : String :=
  "Great job! You're saving more than 20% of your income, which is excellent for long-term financial health."

/-- The `recommendation` arrow function: first-match-wins ladder on
`savingsPercentage`. -/
def recommendation (s : BudgetState) : String :=
  if savingsPercentage s < 0 then msgNegative
  else if savingsPercentage s < 10 then msgBelow10
  else if savingsPercentage s < 20 then msgAim20
  else msgGreat

/-! ### Number formatting

`toLocaleString()` with no arguments formats in the host's default locale;
the spec fixes en-US formatting ("thousands separator", `$5,000`), so the
model groups the integer digits in threes with commas, keeps at most three
fraction digits (the `Intl` default, rounding half away from zero) and drops
trailing fraction zeros.  `toFixed(2)` keeps exactly two fraction digits,
rounding to the nearest hundredth with ties toward the larger value of the
magnitude, and never groups digits. -/

/-- Floor of a nonnegative rational, as a natural number. -/
def posFloor (q : ℚ) : Nat :=
  q.num.toNat / q.den

/-- Insert a comma after every third character (used on a reversed digit
list, so commas land between thousands groups). -/
def group3 : List Char → List Char
  | a :: b :: c :: d :: rest => a :: b :: c :: ',' :: group3 (d :: rest)
  | l => l

/-- A natural number with en-US thousands separators, e.g. `5000 ↦ "5,000"`. -/
def natGrouped (n : Nat) : String :=
  String.mk (group3 (Nat.toDigits 10 n).reverse).reverse

/-- Up to three fraction digits (`fp < 1000`), trailing zeros removed. -/
def fracDigits (fp : Nat) : String :=
  String.mk
    (([Nat.digitChar (fp / 100), Nat.digitChar (fp / 10 % 10), Nat.digitChar (fp % 10)].reverse.dropWhile
        (· == '0')).reverse)

/-- `toLocaleString()` of a nonnegative number. -/
def locStringNonneg (q : ℚ) : String :=
  natGrouped (posFloor (q * 1000 + 1 / 2) / 1000) ++
    (if posFloor (q * 1000 + 1 / 2) % 1000 = 0 then ""
     else "." ++ fracDigits (posFloor (q * 1000 + 1 / 2) % 1000))

/-- `Number.prototype.toLocaleString()` in the en-US default locale. -/
def toLocaleString (q : ℚ) : String :=
  if q < 0 then "-" ++ locStringNonneg (-q) else locStringNonneg q

/-- Exactly two decimal digits, zero-padded (`7 ↦ "07"`). -/
def twoDigits (n : Nat) : String :=
  String.mk [Nat.digitChar (n / 10 % 10), Nat.digitChar (n % 10)]

/-- `toFixed(2)` of a nonnegative number. -/
def toFixed2Nonneg (q : ℚ) : String :=
  Nat.repr (posFloor (q * 100 + 1 / 2) / 100) ++ "." ++ twoDigits (posFloor (q * 100 + 1 / 2) % 100)

/-- `Number.prototype.toFixed(2)`. -/
def toFixed2 (q : ℚ) : String :=
  if q < 0 then "-" ++ toFixed2Nonneg (-q) else toFixed2Nonneg q

/-! ### Exports -/

/-- The `EXPENSES:` block body of the text export:
`Object.entries(expenses).map(([category, amount]) => ...).join('\n')`. -/
def expenseLines (e : ExpenseSet) : String :=
  String.intercalate "\n"
    ((entriesList e).map (fun p => capitalize p.1 ++ ": $" ++ toLocaleString p.2))

/-- The `budgetText` template literal of `downloadAsTxt`, byte for byte.
The template literal opens with a line break right after the backtick and
closes with one right before it, so the content both starts and ends with a
newline character. -/
def budgetText (s : BudgetState) : String :=
  "\nBUDGET SUMMARY\n==============\n\nIncome: $" ++ toLocaleString s.income ++
  "\n\nEXPENSES:\n" ++ expenseLines s.expenses ++
  "\n\nTotal Expenses: $" ++ toLocaleString (totalExpenses s.expenses) ++
  "\nSavings: $" ++ toLocaleString (savings s) ++
  "\nSavings Percentage: " ++ toFixed2 (savingsPercentage s) ++ "%" ++
  "\n\nRecommendation: " ++ recommendation s ++ "\n"

/-- A spreadsheet cell: `Amount` is a number for every row except the
`Savings Percentage` row, whose value is a string. -/
inductive CellValue
  | num (q : ℚ)
  | str (s : String)
deriving DecidableEq, Repr

/-- One row of the sheet built by `XLSX.utils.json_to_sheet`:
an object with the two keys `Category` and `Amount`. -/
structure SheetRow where
  category : String
  amount : CellValue
deriving DecidableEq, Repr

/-- The row list passed to `json_to_sheet`, in source order. -/
def excelRows (s : BudgetState) : List SheetRow :=
  [⟨"Income", .num s.income⟩] ++
  (entriesList s.expenses).map (fun p => ⟨capitalize p.1, .num p.2⟩) ++
  [⟨"Total Expenses", .num (totalExpenses s.expenses)⟩,
   ⟨"Savings", .num (savings s)⟩,
   ⟨"Savings Percentage", .str (toFixed2 (savingsPercentage s) ++ "%")⟩]

/-- The workbook produced by `downloadAsExcel`: one sheet, its name, its
column headers (the keys of the row objects) and the target file name. -/
structure ExcelExport where
  fileName : String
  sheetName : String
  headers : List String
  rows : List SheetRow
deriving DecidableEq, Repr

/-- `downloadAsExcel` as a pure projection of the state. -/
def downloadAsExcel (s : BudgetState) : ExcelExport :=
  { fileName := "my_budget_plan.xlsx"
    sheetName := "Budget Summary"
    headers := ["Category", "Amount"]
    rows := excelRows s }

/-! ### Event semantics

The component's handlers as a step function: each user event maps the
current state to a successor state plus a list of externally visible
effects (file downloads, toast notifications). -/

/-- Payload of a triggered download. -/
inductive FileContent
  | txt (content : String)
  | xlsx (wb : ExcelExport)
deriving DecidableEq, Repr

/-- Externally visible side effects of a handler. -/
inductive Effect
  | saveFile (name : String) (content : FileContent)
  | toast (title descr : String)
deriving DecidableEq, Repr

/-- The user events the component handles. -/
inductive Event
  | setIncomeEvt (v : ℚ)
  | setExpenseEvt (c : Category) (v : ℚ)
  | clickDownloadExcel
  | clickDownloadTxt
deriving DecidableEq, Repr

/-- One step of the component: the handler fired by the event. -/
def step (s : BudgetState) : Event → BudgetState × List Effect
  | .setIncomeEvt v => ({ s with income := v }, [])
  | .setExpenseEvt c v => ({ s with expenses := setExpense s.expenses c v }, [])
  | .clickDownloadExcel =>
      (s, [.saveFile "my_budget_plan.xlsx" (.xlsx (downloadAsExcel s)),
           .toast "Budget Downloaded" "Your budget has been saved as an Excel file"])
  | .clickDownloadTxt =>
      (s, [.saveFile "my_budget_plan.txt" (.txt (budgetText s)),
           .toast "Budget Downloaded" "Your budget has been saved as a text file"])

/-! ## Theorems about the claims -/

set_option maxRecDepth 100000

/-- Helper: `toFixed(2)` always yields an integer part, a decimal point and
exactly two fraction digits. -/
theorem toFixed2_shape (q : ℚ) :
    ∃ ip fp : String, toFixed2 q = ip ++ "." ++ fp ∧ fp.length = 2 := by
  unfold toFixed2 toFixed2Nonneg
  split
  · exact ⟨"-" ++ Nat.repr (posFloor (-q * 100 + 1 / 2) / 100),
      twoDigits (posFloor (-q * 100 + 1 / 2) % 100),
      by simp [String.append_assoc], rfl⟩
  · exact ⟨Nat.repr (posFloor (q * 100 + 1 / 2) / 100),
      twoDigits (posFloor (q * 100 + 1 / 2) % 100), rfl, rfl⟩

/-- C1: the recommendation is chosen by first-match-wins thresholds on the
savings percentage: for every state with positive income, a percentage below
0 yields the "expenses exceed income" message, in `[0, 10)` the "saving less
than 10%" message, in `[10, 20)` the "aim for 20%" message and at or above
20 the "great job" message; in particular exactly 10 yields the "aim for
20%" message and exactly 20 the "great job" message. -/
theorem recommendation_tiers (s : BudgetState) (h : 0 < s.income) :
    (savingsPercentage s < 0 → recommendation s = msgNegative) ∧
    (0 ≤ savingsPercentage s ∧ savingsPercentage s < 10 → recommendation s = msgBelow10) ∧
    (10 ≤ savingsPercentage s ∧ savingsPercentage s < 20 → recommendation s = msgAim20) ∧
    (20 ≤ savingsPercentage s → recommendation s = msgGreat) ∧
    (savingsPercentage s = 10 → recommendation s = msgAim20) ∧
    (savingsPercentage s = 20 → recommendation s = msgGreat) := by
  refine ⟨fun hc => ?_, fun hc => ?_, fun hc => ?_, fun hc => ?_, fun hc => ?_, fun hc => ?_⟩
  · rw [recommendation, if_pos hc]
  · rw [recommendation, if_neg (not_lt.mpr hc.1), if_pos hc.2]
  · rw [recommendation, if_neg (by linarith [hc.1]), if_neg (not_lt.mpr hc.1), if_pos hc.2]
  · rw [recommendation, if_neg (by linarith), if_neg (by linarith), if_neg (by linarith)]
  · rw [recommendation, hc]; norm_num
  · rw [recommendation, hc]; norm_num

/-- Witness for C1 at a state whose savings percentage is exactly 10:
income 1000, expenses 900 in housing and 0 elsewhere. -/
theorem recommendation_tiers_witness :
    recommendation ⟨1000, ⟨900, 0, 0, 0, 0, 0⟩⟩ = msgAim20 :=
  (recommendation_tiers ⟨1000, ⟨900, 0, 0, 0, 0, 0⟩⟩
      (by with_unfolding_all decide)).2.2.2.2.1 (by with_unfolding_all rfl)

/-- C2 counterexample: the text export of the default state does not begin
with the bytes `"BUDGET SUMMARY\n==============\n\n"` — the template literal
opens with a line break, so the content starts with a newline character. -/
theorem budgetText_no_bare_header :
    ("BUDGET SUMMARY\n==============\n\n".isPrefixOf (budgetText defaultState)) = false := by
  with_unfolding_all rfl

/-- C2 (amended): for every state the text export begins with a newline
followed by the literal bytes `"BUDGET SUMMARY\n==============\n\n"` and the
Income line; for the default state it begins with
`"\nBUDGET SUMMARY\n==============\n\nIncome: $5,000"`, thousands separator
applied, byte for byte. -/
theorem budgetText_header :
    (∀ s : BudgetState, ∃ rest : String,
        budgetText s =
          "\nBUDGET SUMMARY\n==============\n\nIncome: $" ++ toLocaleString s.income ++ rest) ∧
    (∃ rest : String,
        budgetText defaultState =
          "\nBUDGET SUMMARY\n==============\n\nIncome: $5,000" ++ rest) := by
  constructor
  · intro s
    refine ⟨"\n\nEXPENSES:\n" ++ expenseLines s.expenses ++
      "\n\nTotal Expenses: $" ++ toLocaleString (totalExpenses s.expenses) ++
      "\nSavings: $" ++ toLocaleString (savings s) ++
      "\nSavings Percentage: " ++ toFixed2 (savingsPercentage s) ++ "%" ++
      "\n\nRecommendation: " ++ recommendation s ++ "\n", ?_⟩
    simp only [budgetText, String.append_assoc]
  · refine ⟨"\n\nEXPENSES:\nHousing: $1,500\nTransportation: $400\nFood: $600\nUtilities: $300\nEntertainment: $200\nOther: $300\n\nTotal Expenses: $3,300\nSavings: $1,700\nSavings Percentage: 34.00%\n\nRecommendation: Great job! You're saving more than 20% of your income, which is excellent for long-term financial health.\n", ?_⟩
    with_unfolding_all rfl

/-- C3: updating one expense category sets exactly that entry to the new
value, leaves every other category unchanged, and the record keeps all six
keys.  (The handler's category parameter has type `keyof typeof expenses`,
mirrored by `Category`, so a key outside the six is rejected by the type
system — the error option the claim allows.) -/
theorem setExpense_frame (e : ExpenseSet) (c c' : Category) (v : ℚ) (hne : c' ≠ c) :
    getExpense (setExpense e c v) c = v ∧
    getExpense (setExpense e c v) c' = getExpense e c' ∧
    (valuesList (setExpense e c v)).length = 6 := by
  refine ⟨?_, ?_, ?_⟩
  · cases c <;> rfl
  · cases c <;> cases c' <;> first | rfl | exact absurd rfl hne
  · cases c <;> rfl

/-- Witness for C3: setting housing to 750 in the default expenses. -/
theorem setExpense_frame_witness :
    getExpense (setExpense defaultExpenses .housing 750) .housing = 750 ∧
    getExpense (setExpense defaultExpenses .housing 750) .food = getExpense defaultExpenses .food ∧
    (valuesList (setExpense defaultExpenses .housing 750)).length = 6 :=
  setExpense_frame defaultExpenses .housing .food 750 (by decide)

/-- C4: the expense total is the sum of the six entries, and summing the
entries in any other order gives the same value. -/
theorem totalExpenses_sum (e : ExpenseSet) (l : List ℚ) (h : l.Perm (valuesList e)) :
    totalExpenses e =
      e.housing + e.transportation + e.food + e.utilities + e.entertainment + e.other ∧
    l.foldl (· + ·) 0 = totalExpenses e := by
  constructor
  · simp only [totalExpenses, valuesList, entriesList, List.map, List.foldl]
    ring
  · calc l.foldl (· + ·) 0 = l.sum := List.sum_eq_foldl.symm
      _ = (valuesList e).sum := h.sum_eq
      _ = totalExpenses e := by rw [totalExpenses, List.sum_eq_foldl]

/-- Witness for C4: the default expenses summed in reversed order. -/
theorem totalExpenses_sum_witness :
    totalExpenses defaultExpenses =
      defaultExpenses.housing + defaultExpenses.transportation + defaultExpenses.food +
        defaultExpenses.utilities + defaultExpenses.entertainment + defaultExpenses.other ∧
    ([300, 200, 300, 600, 400, 1500] : List ℚ).foldl (· + ·) 0 = totalExpenses defaultExpenses :=
  totalExpenses_sum defaultExpenses [300, 200, 300, 600, 400, 1500]
    (by with_unfolding_all decide)

/-- C5: for every state, savings is exactly income minus total expenses
(negative results and income 0 included), and whenever the income is
nonzero the savings percentage is exactly savings divided by income times
100. -/
theorem savings_formulas (s : BudgetState) :
    savings s = s.income - totalExpenses s.expenses ∧
    (s.income ≠ 0 → savingsPercentage s = savings s / s.income * 100) :=
  ⟨rfl, fun _ => rfl⟩

/-- Witness for C5 at the default state, discharging the nonzero-income
hypothesis of the percentage conjunct there. -/
theorem savings_formulas_witness :
    savings defaultState = defaultState.income - totalExpenses defaultState.expenses ∧
    savingsPercentage defaultState = savings defaultState / defaultState.income * 100 :=
  ⟨(savings_formulas defaultState).1,
   (savings_formulas defaultState).2 (by with_unfolding_all decide)⟩

/-- C6: the spreadsheet export has headers `Category`/`Amount`, rows in the
exact order Income, the six capitalized categories in declaration order,
Total Expenses, Savings and a Savings Percentage row whose value is a
string of an integer part, two decimal digits and a trailing `%`; the sheet
is named `Budget Summary` inside file `my_budget_plan.xlsx`. -/
theorem downloadAsExcel_layout (s : BudgetState) :
    downloadAsExcel s =
      { fileName := "my_budget_plan.xlsx"
        sheetName := "Budget Summary"
        headers := ["Category", "Amount"]
        rows := [⟨"Income", .num s.income⟩,
                 ⟨"Housing", .num s.expenses.housing⟩,
                 ⟨"Transportation", .num s.expenses.transportation⟩,
                 ⟨"Food", .num s.expenses.food⟩,
                 ⟨"Utilities", .num s.expenses.utilities⟩,
                 ⟨"Entertainment", .num s.expenses.entertainment⟩,
                 ⟨"Other", .num s.expenses.other⟩,
                 ⟨"Total Expenses", .num (totalExpenses s.expenses)⟩,
                 ⟨"Savings", .num (savings s)⟩,
                 ⟨"Savings Percentage", .str (toFixed2 (savingsPercentage s) ++ "%")⟩] } ∧
    ∃ ip fp : String,
      toFixed2 (savingsPercentage s) = ip ++ "." ++ fp ∧ fp.length = 2 := by
  exact ⟨by with_unfolding_all rfl, toFixed2_shape _⟩

/-- C7: the chart data is one capitalized (label, value) pair per category
in declaration order — six entries — and its values sum to the expense
total. -/
theorem chartData_spec (e : ExpenseSet) :
    chartData e = [("Housing", e.housing), ("Transportation", e.transportation),
                   ("Food", e.food), ("Utilities", e.utilities),
                   ("Entertainment", e.entertainment), ("Other", e.other)] ∧
    (chartData e).length = 6 ∧
    ((chartData e).map Prod.snd).sum = totalExpenses e := by
  refine ⟨by with_unfolding_all rfl, rfl, ?_⟩
  have hv : (chartData e).map Prod.snd = valuesList e := by with_unfolding_all rfl
  rw [hv, List.sum_eq_foldl]
  rfl

/-- C8: at the default state (income 5000, expenses 1500/400/600/300/200/300)
the total is 3300, savings 1700, savings percentage 34 and the
recommendation is the "great job" message. -/
theorem default_scenario :
    totalExpenses defaultState.expenses = 3300 ∧
    savings defaultState = 1700 ∧
    savingsPercentage defaultState = 34 ∧
    recommendation defaultState = msgGreat := by
  refine ⟨?_, ?_, ?_, ?_⟩ <;> with_unfolding_all rfl

/-- C9: neither export event changes the component state — both handlers
only read income and expenses and emit effects. -/
theorem exports_preserve_state (s : BudgetState) :
    (step s .clickDownloadExcel).1 = s ∧ (step s .clickDownloadTxt).1 = s :=
  ⟨rfl, rfl⟩

/-- C10: the text export is a deterministic function of the seven state
numbers — two states agreeing on income and all six expense entries produce
byte-for-byte identical text (and `budgetText` takes no other input). -/
theorem budgetText_deterministic (s₁ s₂ : BudgetState)
    (h : s₁.income = s₂.income ∧
         s₁.expenses.housing = s₂.expenses.housing ∧
         s₁.expenses.transportation = s₂.expenses.transportation ∧
         s₁.expenses.food = s₂.expenses.food ∧
         s₁.expenses.utilities = s₂.expenses.utilities ∧
         s₁.expenses.entertainment = s₂.expenses.entertainment ∧
         s₁.expenses.other = s₂.expenses.other) :
    budgetText s₁ = budgetText s₂ := by
  obtain ⟨h1, h2, h3, h4, h5, h6, h7⟩ := h
  obtain ⟨i₁, e₁⟩ := s₁
  obtain ⟨i₂, e₂⟩ := s₂
  obtain ⟨a1, b1, c1, d1, f1, g1⟩ := e₁
  obtain ⟨a2, b2, c2, d2, f2, g2⟩ := e₂
  simp_all

/-- Witness for C10: two syntactically different spellings of the default
state export the same text. -/
theorem budgetText_deterministic_witness :
    budgetText { income := 5000,
                 expenses := { housing := 1500, transportation := 400, food := 600,
                               utilities := 300, entertainment := 200, other := 300 } } =
      budgetText defaultState :=
  budgetText_deterministic _ _ ⟨rfl, rfl, rfl, rfl, rfl, rfl, rfl⟩

end BudgetPlanner
